import Mathlib

/-!
Shallow embedding of the Tartarus-Launch game server (src/server.js).

The server holds a single in-memory game session, a one-second countdown
timer, and a set of socket handlers.  Each handler is embedded as a pure
function from the server state to a new state paired with the list of
outbound messages it emits (broadcasts to all clients, direct replies to
the requesting socket, and sends to the simulation/collaborator socket).
Socket identities are modelled as natural numbers; the repeating interval
timers are modelled by identifiers so that arming and cancelling can be
tracked (`gameTimer` is the variable holding the current handle, `live`
the set of intervals that are armed and not yet cleared).
-/

namespace Tartarus

/-- One entry of the conversation log: `gameState.conversation` elements
`\x7b speaker, text \x7d` in server.js. -/
structure Entry where
  speaker : String
  text : String
  deriving DecidableEq, Repr

/-- `const ROLES = ['Captain', 'Engineer', 'Doctor', 'Pilot']` (line 20). -/
def ROLES : List String := ["Captain", "Engineer", "Doctor", "Pilot"]

/-- The `gameState` record (lines 23-32).  `traitor` and `gameResult` start
as `null`, modelled by `Option`. -/
structure GameState where
  turn : Nat
  playerLocation : String
  isAlive : Bool
  conversation : List Entry
  gameOver : Bool
  traitor : Option String
  timeRemaining : Nat
  gameResult : Option String
  deriving DecidableEq, Repr

/-- Whole server state: the game state plus the module-level mutable
variables `simulationSocket` and `gameTimer` (lines 35-36), and the timer
bookkeeping (`nextTimer` supplies fresh interval identifiers, `live` is the
set of armed intervals). -/
structure ServerState where
  game : GameState
  simulationSocket : Option Nat
  gameTimer : Option Nat
  nextTimer : Nat
  live : List Nat
  deriving DecidableEq, Repr

/-- JavaScript truthiness of an optional string value: `undefined`/`null`
and the empty string are falsy. -/
def truthy : Option String → Bool
  | none => false
  | some s => !s.isEmpty

/-- The structured `generateResponse` payload sent to the simulation socket
(lines 129-138). -/
structure GenRequest where
  turn : Nat
  playerAction : Option String
  conversation : List Entry
  location : String
  isAlive : Bool
  timeRemaining : Nat
  deriving DecidableEq, Repr

/-- Wire payloads emitted by the server.  `gameOverFull` is the `game_over`
event that carries a `realTraitor` field (timer expiry and accusation
paths); `gameOverNoTraitor` is the `game_over` event of
`request-initial-state`, which has only `result` and `message` fields. -/
inductive Payload where
  | timeUpdate (timeRemaining : Nat)
  | chatMessage (text : String)
  | gameResponse (message : String) (choices : List String)
  | gameOverFull (result : String) (message : String) (realTraitor : Option String)
  | gameOverNoTraitor (result : Option String) (message : String)
  | systemReset
  deriving DecidableEq, Repr

/-- One outbound emission: `io.emit` (broadcast to every client),
`socket.emit` (direct reply to one socket), or an emit on
`simulationSocket` (`secret_traitor_info` / `generateResponse`). -/
inductive Out where
  | broadcast (p : Payload)
  | direct (sock : Nat) (p : Payload)
  | simTraitorInfo (role : Option String)
  | simGenerate (req : GenRequest)
  deriving DecidableEq, Repr

/-- Fixed chat line broadcast on timer expiry (line 79). -/
def timeoutChat : String := "[SYSTEM] 시간 종료. 배신자를 찾지 못했습니다."

/-- Fixed `game_over` narrative on timer expiry (line 82). -/
def timeoutMessage : String :=
  "TARTARUS SYSTEM: [TIME OVER]. 제한 시간 내 배신자를 찾지 못했습니다. 미션 실패."

/-- Fixed victory narrative (line 185; repeated verbatim at line 239). -/
def victoryMessage : String :=
  "TARTARUS SYSTEM: [TARGET TERMINATED]. 관찰 결과: 하얀색 유체(White Fluid) 식별됨. 안드로이드 배신자 제거 성공."

/-- Fixed defeat narrative of a wrong accusation (line 199; repeated
verbatim at line 240). -/
def defeatMessage : String :=
  "TARTARUS SYSTEM: [TARGET TERMINATED]. 관찰 결과: 붉은 혈액(Red Blood) 식별됨. 무고한 승무원 사망. 미션 실패."

/-- Degraded-mode message when no simulation socket is connected (line 142). -/
def noSimMessage : String := "[SYSTEM] AI 시뮬레이션 모듈이 연결되지 않았습니다."

/-- Fallback choices of the degraded-mode response (line 143). -/
def noSimChoices : List String := ["다시 시도", "대기", "시스템 확인"]

/-- Default choices used when the AI reply supplies none (line 228). -/
def aiDefaultChoices : List String := ["계속", "대기", "확인"]

/-- `if (gameTimer) \x7b clearInterval(gameTimer); gameTimer = null; \x7d`
(lines 41-44 and 174-177). -/
def clearTimer (s : ServerState) : ServerState :=
  match s.gameTimer with
  | some id => { s with gameTimer := none, live := s.live.filter (fun x => x ≠ id) }
  | none => s

/-- `clearInterval(gameTimer)` without nulling the variable (lines 66 and
86, inside the interval callback). -/
def clearIntervalRef (s : ServerState) : ServerState :=
  match s.gameTimer with
  | some id => { s with live := s.live.filter (fun x => x ≠ id) }
  | none => s

/-- `startGame` (lines 39-89): clear any previous timer, reset every game
field, draw the traitor `ROLES[k]` (the random index `k` is a parameter,
always `< 4` in the source since `Math.floor(Math.random()*4) ∈ [0,4)`),
send `secret_traitor_info` to the simulation socket if one is connected,
and arm a fresh interval timer. -/
def startGame (k : Nat) (s : ServerState) : ServerState × List Out :=
  let s1 := clearTimer s
  let tr : Option String := some (ROLES.getD k "Captain")
  let g : GameState :=
    { turn := 0, playerLocation := "bridge", isAlive := true, conversation := [],
      gameOver := false, traitor := tr, timeRemaining := 600, gameResult := none }
  let outs := match s1.simulationSocket with
    | some _ => [Out.simTraitorInfo tr]
    | none => []
  ({ s1 with game := g, gameTimer := some s1.nextTimer,
             nextTimer := s1.nextTimer + 1, live := s1.live ++ [s1.nextTimer] },
   outs)

/-- The interval callback (lines 64-88): if the game is over, clear the
interval and do nothing else; otherwise decrement the remaining time
(floored at 0, which is exactly `Nat` subtraction), broadcast it, and if it
reached 0 perform the one-time timeout resolution. -/
def tick (s : ServerState) : ServerState × List Out :=
  if s.game.gameOver then (clearIntervalRef s, [])
  else
    let t := s.game.timeRemaining - 1
    let s1 : ServerState := { s with game := { s.game with timeRemaining := t } }
    if t = 0 then
      let s2 : ServerState :=
        { s1 with game := { s1.game with gameOver := true, gameResult := some "defeat" } }
      (clearIntervalRef s2,
       [Out.broadcast (Payload.timeUpdate t),
        Out.broadcast (Payload.chatMessage timeoutChat),
        Out.broadcast (Payload.gameOverFull "defeat" timeoutMessage s.game.traitor)])
    else
      (s1, [Out.broadcast (Payload.timeUpdate t)])

/-- The last `n` elements of a list — `Array.prototype.slice(-n)` on a
nonempty bound. -/
def lastN (n : Nat) (l : List Entry) : List Entry := l.drop (l.length - n)

/-- `socket.on('action')` (lines 108-146). -/
def onAction (message playerAction : Option String) (s : ServerState) :
    ServerState × List Out :=
  if s.game.gameOver then (s, [])
  else
    let msgText := message.getD ""
    let g1 :=
      if truthy message then
        { s.game with conversation :=
            s.game.conversation ++ [{ speaker := "플레이어", text := msgText }] }
      else s.game
    let outs1 :=
      if truthy message then [Out.broadcast (Payload.chatMessage ("> " ++ msgText))]
      else []
    let g2 := { g1 with turn := g1.turn + 1 }
    match s.simulationSocket with
    | some _ =>
      ({ s with game := g2 },
       outs1 ++ [Out.simGenerate
         { turn := g2.turn,
           playerAction := if truthy playerAction then playerAction else message,
           conversation := lastN 20 g2.conversation,
           location := g2.playerLocation, isAlive := g2.isAlive,
           timeRemaining := g2.timeRemaining }])
    | none =>
      ({ s with game := g2 },
       outs1 ++ [Out.broadcast (Payload.gameResponse noSimMessage noSimChoices)])

/-- The display-label → canonical-role table (lines 164-169). -/
def nameMapping (n : String) : Option String :=
  if n = "선장" then some "Captain"
  else if n = "엔지니어" then some "Engineer"
  else if n = "의사" then some "Doctor"
  else if n = "파일럿" then some "Pilot"
  else none

/-- `socket.on('accuse')` (lines 149-209). -/
def onAccuse (targetName : Option String) (s : ServerState) : ServerState × List Out :=
  if s.game.gameOver then (s, [])
  else if truthy targetName = false then (s, [])
  else
    let tn := targetName.getD ""
    let accusedRole := (nameMapping tn).getD tn
    let s1 := clearTimer s
    if some accusedRole = s1.game.traitor then
      ({ s1 with game := { s1.game with gameOver := true, gameResult := some "victory" } },
       [Out.broadcast (Payload.chatMessage ("[SYSTEM] " ++ tn ++ " 처형 완료.")),
        Out.broadcast (Payload.gameOverFull "victory" victoryMessage s1.game.traitor)])
    else
      ({ s1 with game := { s1.game with gameOver := true, gameResult := some "defeat" } },
       [Out.broadcast (Payload.chatMessage ("[SYSTEM] " ++ tn ++ " 처형 완료.")),
        Out.broadcast (Payload.gameOverFull "defeat" defeatMessage s1.game.traitor)])

/-- `socket.on('ai response')` (lines 212-230).  The handler never compares
the emitting socket against `simulationSocket`; the `sender` parameter is
therefore unused, exactly as in the source. -/
def onAiResponse (sender : Nat) (message : String) (choices : Option (List String))
    (s : ServerState) : ServerState × List Out :=
  if s.game.gameOver then (s, [])
  else
    ({ s with game := { s.game with conversation :=
         s.game.conversation ++ [{ speaker := "AI", text := message }] } },
     [Out.broadcast (Payload.chatMessage message),
      Out.broadcast (Payload.gameResponse message (choices.getD aiDefaultChoices))])

/-- `socket.on('request-initial-state')` (lines 233-243): direct replies to
the requesting socket only; the reconstructed `game_over` has no
`realTraitor` field. -/
def onRequestInitialState (sender : Nat) (s : ServerState) : ServerState × List Out :=
  (s, Out.direct sender (Payload.timeUpdate s.game.timeRemaining) ::
      (if s.game.gameOver then
        [Out.direct sender (Payload.gameOverNoTraitor s.game.gameResult
          (if s.game.gameResult = some "victory" then victoryMessage else defeatMessage))]
      else []))

/-- `socket.on('restart_game')` (lines 246-255): run `startGame`, broadcast
`system_reset`, then emit `secret_traitor_info` (again) if the simulation
socket is connected. -/
def onRestartGame (k : Nat) (s : ServerState) : ServerState × List Out :=
  let r := startGame k s
  (r.1, r.2 ++ [Out.broadcast Payload.systemReset] ++
        (match r.1.simulationSocket with
         | some _ => [Out.simTraitorInfo r.1.game.traitor]
         | none => []))

/-- `socket.on('simulation-ready')` (lines 98-105): register the sender as
the simulation socket and send it the traitor if one is assigned. -/
def onSimulationReady (sender : Nat) (s : ServerState) : ServerState × List Out :=
  let s1 : ServerState := { s with simulationSocket := some sender }
  (s1, if truthy s1.game.traitor then [Out.simTraitorInfo s1.game.traitor] else [])

/-- `socket.on('disconnect')` (lines 258-265). -/
def onDisconnect (sender : Nat) (s : ServerState) : ServerState × List Out :=
  (if s.simulationSocket = some sender then { s with simulationSocket := none } else s, [])

/-- The events the server reacts to.  `act`, `accuse` carry the sender for
uniformity although the source never reads it there; `restart` carries the
random index of the new draw. -/
inductive Event where
  | simReady (sender : Nat)
  | act (sender : Nat) (message playerAction : Option String)
  | accuse (sender : Nat) (targetName : Option String)
  | aiResp (sender : Nat) (message : String) (choices : Option (List String))
  | reqInit (sender : Nat)
  | restart (sender : Nat) (k : Nat)
  | tickEv
  | disconnect (sender : Nat)
  deriving DecidableEq, Repr

/-- Dispatch of one event to its handler. -/
def step : Event → ServerState → ServerState × List Out
  | .simReady sender, s => onSimulationReady sender s
  | .act _ m pa, s => onAction m pa s
  | .accuse _ tn, s => onAccuse tn s
  | .aiResp sender m c, s => onAiResponse sender m c s
  | .reqInit sender, s => onRequestInitialState sender s
  | .restart _ k, s => onRestartGame k s
  | .tickEv, s => tick s
  | .disconnect sender, s => onDisconnect sender s

/-- Whether an event is the restart request. -/
def isRestart : Event → Bool
  | .restart _ _ => true
  | _ => false

/-- Run a sequence of events, collecting all emissions in order. -/
def run : List Event → ServerState → ServerState × List Out
  | [], s => (s, [])
  | e :: es, s =>
    let r1 := step e s
    let r2 := run es r1.1
    (r2.1, r1.2 ++ r2.2)

/-- Iterate the timer callback `n` times, collecting emissions. -/
def ticks : Nat → ServerState → ServerState × List Out
  | 0, s => (s, [])
  | n + 1, s =>
    let r1 := tick s
    let r2 := ticks n r1.1
    (r2.1, r1.2 ++ r2.2)

/-- The broadcast-all (`io.emit`) payloads of an emission list. -/
def broadcasts (outs : List Out) : List Payload :=
  outs.filterMap fun o =>
    match o with
    | .broadcast p => some p
    | _ => none

/-- The `gameState` record at module load (lines 23-32), before the
`startGame()` call of line 92. -/
def initialGameState : GameState :=
  { turn := 0, playerLocation := "bridge", isAlive := true, conversation := [],
    gameOver := false, traitor := none, timeRemaining := 600, gameResult := none }

/-- Module-level server state before `startGame()` runs. -/
def initialServer : ServerState :=
  { game := initialGameState, simulationSocket := none, gameTimer := none,
    nextTimer := 0, live := [] }

/-- Replace only the traitor of a server state. -/
def setTraitor (s : ServerState) (r : Option String) : ServerState :=
  { s with game := { s.game with traitor := r } }

/-- Two server states agree on everything except possibly the drawn
traitor. -/
def agree (a b : ServerState) : Prop := setTraitor a none = setTraitor b none

instance : DecidablePred (fun p : ServerState × ServerState => agree p.1 p.2) :=
  fun p => inferInstanceAs (Decidable (setTraitor p.1 none = setTraitor p.2 none))

instance (a b : ServerState) : Decidable (agree a b) :=
  inferInstanceAs (Decidable (setTraitor a none = setTraitor b none))

/-- Every armed interval is the one `gameTimer` refers to, and its
identifier is older than the fresh-identifier counter.  This holds in every
reachable state. -/
def timerInv (s : ServerState) : Prop :=
  ∀ id ∈ s.live, s.gameTimer = some id ∧ id < s.nextTimer

/-- Bool version of `timerInv` for concrete evaluation. -/
def timerInvB (s : ServerState) : Bool :=
  s.live.all fun id => s.gameTimer == some id && id < s.nextTimer

/-- Number of `secret_traitor_info` sends in an emission list. -/
def countTraitorSends (outs : List Out) : Nat :=
  outs.countP fun o =>
    match o with
    | .simTraitorInfo _ => true
    | _ => false

/-- Whether an emission is a direct reply to socket `sock`. -/
def isDirectTo (sock : Nat) : Out → Bool
  | .direct s _ => s == sock
  | _ => false

/-- Whether an emission carries a `realTraitor` field. -/
def carriesRealTraitor : Out → Bool
  | .broadcast (.gameOverFull _ _ _) => true
  | .direct _ (.gameOverFull _ _ _) => true
  | _ => false

/-- Whether an emission is a `game_over` event (either shape). -/
def isGameOverOut : Out → Bool
  | .broadcast (.gameOverFull _ _ _) => true
  | .direct _ (.gameOverFull _ _ _) => true
  | .broadcast (.gameOverNoTraitor _ _) => true
  | .direct _ (.gameOverNoTraitor _ _) => true
  | _ => false

/-- Each step of a run leaves the game un-ended (so the whole run happens
before game end). -/
def safeRunB : List Event → ServerState → Bool
  | [], _ => true
  | e :: es, s => !(step e s).1.game.gameOver && safeRunB es (step e s).1

/-- A mid-game state with secret role Doctor, three minutes in. -/
def sDoctor : ServerState :=
  { game := { turn := 4, playerLocation := "bridge", isAlive := true, conversation := [],
              gameOver := false, traitor := some "Doctor", timeRemaining := 597,
              gameResult := none },
    simulationSocket := none, gameTimer := some 0, nextTimer := 1, live := [0] }

/-- A fresh session (as produced by `startGame` at process start) with
secret role Doctor and no simulation socket connected. -/
def sDoctorFresh : ServerState :=
  { game := { turn := 0, playerLocation := "bridge", isAlive := true, conversation := [],
              gameOver := false, traitor := some "Doctor", timeRemaining := 600,
              gameResult := none },
    simulationSocket := none, gameTimer := some 0, nextTimer := 1, live := [0] }

/-- A mid-game state with the simulation socket (socket 5) connected. -/
def sSim : ServerState :=
  { game := { turn := 2, playerLocation := "bridge", isAlive := true, conversation := [],
              gameOver := false, traitor := some "Pilot", timeRemaining := 500,
              gameResult := none },
    simulationSocket := some 5, gameTimer := some 0, nextTimer := 1, live := [0] }

/-- An ended session (wrong accusation already resolved to defeat). -/
def sEnded : ServerState :=
  { game := { turn := 3, playerLocation := "bridge", isAlive := true, conversation := [],
              gameOver := true, traitor := some "Pilot", timeRemaining := 42,
              gameResult := some "defeat" },
    simulationSocket := none, gameTimer := none, nextTimer := 1, live := [] }

/-- A mid-game state whose registered simulation socket is socket 1. -/
def sC9 : ServerState :=
  { game := { turn := 0, playerLocation := "bridge", isAlive := true, conversation := [],
              gameOver := false, traitor := some "Captain", timeRemaining := 600,
              gameResult := none },
    simulationSocket := some 1, gameTimer := some 0, nextTimer := 1, live := [0] }

/-- A state one second before timeout. -/
def sAlmost : ServerState :=
  { game := { turn := 9, playerLocation := "bridge", isAlive := true, conversation := [],
              gameOver := false, traitor := some "Engineer", timeRemaining := 1,
              gameResult := none },
    simulationSocket := none, gameTimer := some 3, nextTimer := 4, live := [3] }

/-- `sDoctor` with the secret role replaced by Captain (for the
noninterference witness). -/
def sDoctorAlt : ServerState := setTraitor sDoctor (some "Captain")

/-- A short pre-game-end event trace for the noninterference witness. -/
def esW : List Event :=
  [Event.tickEv, Event.act 1 (some "check panel") none,
   Event.reqInit 2, Event.aiResp 1 "narration" none, Event.tickEv]

/-! ### Helper lemmas about the timer bookkeeping -/

theorem clearTimer_game (s : ServerState) : (clearTimer s).game = s.game := by
  cases h : s.gameTimer <;> simp [clearTimer, h]

theorem clearTimer_simulationSocket (s : ServerState) :
    (clearTimer s).simulationSocket = s.simulationSocket := by
  cases h : s.gameTimer <;> simp [clearTimer, h]

theorem clearTimer_nextTimer (s : ServerState) :
    (clearTimer s).nextTimer = s.nextTimer := by
  cases h : s.gameTimer <;> simp [clearTimer, h]

theorem clearTimer_gameTimer (s : ServerState) : (clearTimer s).gameTimer = none := by
  cases h : s.gameTimer <;> simp [clearTimer, h]

theorem clearTimer_live_of_inv (s : ServerState) (hinv : timerInv s) :
    (clearTimer s).live = [] := by
  cases h : s.gameTimer with
  | none =>
    simp only [clearTimer, h]
    cases hl : s.live with
    | nil => rfl
    | cons x xs =>
      exfalso
      have := (hinv x (by simp [hl])).1
      rw [h] at this
      exact Option.noConfusion this
  | some id =>
    simp only [clearTimer, h]
    rw [List.filter_eq_nil_iff]
    intro x hx
    have := (hinv x hx).1
    rw [h] at this
    simp [Option.some.injEq] at this
    simp [this]

/-! ### Claim C1: the accusation resolver -/

/-- Claim C1: while the session is not over, an `accuse` with a missing or
empty target logs only and performs no state change and no broadcast; with
a present target it cancels the countdown timer, maps the display label
through the fixed table (unknown labels pass through), compares the
canonical role to the secret role, sets the outcome to victory on a match
and defeat otherwise, latches the game-over flag, and broadcasts the
execution-complete chat line followed by the structured `game_over` event
carrying the outcome, that branch's fixed narrative, and the real secret
role. -/
theorem accuse_resolution (s : ServerState) (target : Option String)
    (hover : s.game.gameOver = false) (hinv : timerInv s) :
    (truthy target = false → onAccuse target s = (s, [])) ∧
    (∀ tn : String, target = some tn → truthy target = true →
      (onAccuse target s).1.game.gameOver = true ∧
      (onAccuse target s).1.game.gameResult =
        some (if some ((nameMapping tn).getD tn) = s.game.traitor
              then "victory" else "defeat") ∧
      (onAccuse target s).1.gameTimer = none ∧
      (onAccuse target s).1.live = [] ∧
      (onAccuse target s).2 =
        [Out.broadcast (Payload.chatMessage ("[SYSTEM] " ++ tn ++ " 처형 완료.")),
         Out.broadcast (Payload.gameOverFull
           (if some ((nameMapping tn).getD tn) = s.game.traitor
            then "victory" else "defeat")
           (if some ((nameMapping tn).getD tn) = s.game.traitor
            then victoryMessage else defeatMessage)
           s.game.traitor)]) := by
  constructor
  · intro htr
    simp [onAccuse, hover, htr]
  · intro tn htn htr
    subst htn
    by_cases hcomp : some ((nameMapping tn).getD tn) = s.game.traitor <;>
      simp [onAccuse, hover, htr, hcomp, clearTimer_game, clearTimer_gameTimer,
        clearTimer_live_of_inv s hinv]

/-- Witness for `accuse_resolution`: the spec scenario — secret role
Doctor, accusation of the display label 의사 resolves to victory with the
real role disclosed. -/
theorem accuse_resolution_w :
    (onAccuse (some "의사") sDoctor).1.game.gameOver = true ∧
    (onAccuse (some "의사") sDoctor).1.game.gameResult = some "victory" ∧
    (onAccuse (some "의사") sDoctor).1.gameTimer = none ∧
    (onAccuse (some "의사") sDoctor).1.live = [] ∧
    (onAccuse (some "의사") sDoctor).2 =
      [Out.broadcast (Payload.chatMessage ("[SYSTEM] " ++ "의사" ++ " 처형 완료.")),
       Out.broadcast (Payload.gameOverFull "victory" victoryMessage (some "Doctor"))] := by
  have h := (accuse_resolution sDoctor (some "의사") (by rfl)
      (by intro id hid; simp [sDoctor] at hid; simp [sDoctor, hid])).2
      "의사" rfl (by rfl)
  simpa [sDoctor, nameMapping] using h

/-! ### Claim C2: the countdown timer -/

theorem clearIntervalRef_game (s : ServerState) : (clearIntervalRef s).game = s.game := by
  cases h : s.gameTimer <;> simp [clearIntervalRef, h]

theorem clearIntervalRef_gameTimer (s : ServerState) :
    (clearIntervalRef s).gameTimer = s.gameTimer := by
  cases h : s.gameTimer <;> simp [clearIntervalRef, h]

theorem clearIntervalRef_idem (s : ServerState) :
    clearIntervalRef (clearIntervalRef s) = clearIntervalRef s := by
  cases h : s.gameTimer with
  | none => simp [clearIntervalRef, h]
  | some id =>
    simp [clearIntervalRef, h, List.filter_filter]

theorem tick_of_over (s : ServerState) (h : s.game.gameOver = true) :
    tick s = (clearIntervalRef s, []) := by
  simp [tick, h]

theorem ticks_fixpoint (s : ServerState) (h : tick s = (s, [])) :
    ∀ n, ticks n s = (s, []) := by
  intro n
  induction n with
  | zero => rfl
  | succ m ih => simp [ticks, h, ih]

/-- Claim C2: while the session is active every tick decrements the
remaining time by 1 floored at 0 (so it is non-increasing and never
negative, which `Nat` subtraction makes intrinsic); the first tick that
brings it to 0 with the game not over performs exactly one timeout
resolution — latching the game-over flag, setting the outcome to defeat,
broadcasting the new time, a system narration line and the structured
`game_over` event with the fixed timeout narrative and the real secret
role, and cancelling the interval — after which any number of further
ticks leaves the state untouched and emits nothing; and a tick on an
already-ended game mutates no game state and emits nothing. -/
theorem timer_tick_spec (s : ServerState) :
    ((tick s).1.game.timeRemaining ≤ s.game.timeRemaining) ∧
    (s.game.gameOver = false →
      (tick s).1.game.timeRemaining = s.game.timeRemaining - 1) ∧
    (s.game.gameOver = false → s.game.timeRemaining ≤ 1 →
      (tick s).1.game.gameOver = true ∧
      (tick s).1.game.gameResult = some "defeat" ∧
      (tick s).1.live = s.live.filter (fun x => s.gameTimer ≠ some x) ∧
      (tick s).2 =
        [Out.broadcast (Payload.timeUpdate 0),
         Out.broadcast (Payload.chatMessage timeoutChat),
         Out.broadcast (Payload.gameOverFull "defeat" timeoutMessage s.game.traitor)] ∧
      (∀ n, ticks n (tick s).1 = ((tick s).1, []))) ∧
    (s.game.gameOver = true → (tick s).1.game = s.game ∧ (tick s).2 = []) ∧
    (s.game.gameOver = false → 1 < s.game.timeRemaining →
      (tick s).1.game.gameOver = false ∧
      (tick s).2 = [Out.broadcast (Payload.timeUpdate (s.game.timeRemaining - 1))]) := by
  refine ⟨?_, ?_, ?_, ?_, ?_⟩
  · by_cases hov : s.game.gameOver
    · simp [tick, hov, clearIntervalRef_game]
    · simp only [Bool.not_eq_true] at hov
      by_cases ht : s.game.timeRemaining - 1 = 0 <;>
        simp [tick, hov, ht, clearIntervalRef_game] <;> omega
  · intro hov
    by_cases ht : s.game.timeRemaining - 1 = 0 <;>
      simp [tick, hov, ht, clearIntervalRef_game] <;> omega
  · intro hov ht
    have ht0 : s.game.timeRemaining - 1 = 0 := by omega
    have hover1 : (tick s).1.game.gameOver = true := by
      simp [tick, hov, ht0, clearIntervalRef_game]
    have hfix : tick (tick s).1 = ((tick s).1, []) := by
      rw [tick_of_over _ hover1]
      have : (tick s).1 = clearIntervalRef (tick s).1 := by
        conv_lhs => simp [tick, hov, ht0]
        simp [tick, hov, ht0, clearIntervalRef_idem]
      exact congrArg (fun x => (x, ([] : List Out))) this.symm
    refine ⟨hover1, ?_, ?_, ?_, ticks_fixpoint _ hfix⟩
    · simp [tick, hov, ht0, clearIntervalRef_game]
    · cases hgt : s.gameTimer with
      | none => simp [tick, hov, ht0, clearIntervalRef, hgt]
      | some id =>
        simp [tick, hov, ht0, clearIntervalRef, hgt]
        exact List.filter_congr fun a _ => by simp [eq_comm]
    · simp [tick, hov, ht0]
  · intro hov
    simp [tick, hov, clearIntervalRef_game]
  · intro hov ht
    have ht0 : ¬ (s.game.timeRemaining - 1 = 0) := by omega
    simp [tick, hov, ht0]

/-- Witness for `timer_tick_spec`: one second before timeout, the tick
resolves the game to defeat, broadcasts the timeout narrative with the
real role, and all later ticks are inert. -/
theorem timer_tick_spec_w :
    sAlmost.game.gameOver = false ∧ sAlmost.game.timeRemaining ≤ 1 ∧
    (tick sAlmost).1.game.gameOver = true ∧
    (tick sAlmost).1.game.gameResult = some "defeat" ∧
    (tick sAlmost).2 =
      [Out.broadcast (Payload.timeUpdate 0),
       Out.broadcast (Payload.chatMessage timeoutChat),
       Out.broadcast (Payload.gameOverFull "defeat" timeoutMessage (some "Engineer"))] ∧
    ticks 3 (tick sAlmost).1 = ((tick sAlmost).1, []) := by
  have h := (timer_tick_spec sAlmost).2.2.1 (by rfl) (by simp [sAlmost])
  exact ⟨rfl, by simp [sAlmost], h.1, h.2.1, by simpa [sAlmost] using h.2.2.2.1,
    h.2.2.2.2 3⟩

/-! ### Claim C5: the action handler -/

/-- Claim C5: while the session is not over, an `action` with a (truthy)
message appends a player entry to the log and broadcasts it as a quoted
chat line; the turn counter is incremented by exactly one unconditionally;
with a simulation socket connected, a structured prompt carrying the new
turn number, the effective action (a truthy `playerAction` taking priority
over the message), exactly the most recent `min(20, length)` entries of
the log, and the location/alive/time context is sent to that socket only;
with none connected, a degraded-mode `game-response` with the fixed system
message and the fixed 3-item choice list is broadcast instead — so on a
fresh session the first action leaves the turn at 1. -/
theorem action_handler_spec (s : ServerState) (message playerAction : Option String)
    (hover : s.game.gameOver = false) :
    ((onAction message playerAction s).1.game.turn = s.game.turn + 1) ∧
    (truthy message = true →
      (onAction message playerAction s).1.game.conversation =
        s.game.conversation ++ [{ speaker := "플레이어", text := message.getD "" }]) ∧
    (truthy message = false →
      (onAction message playerAction s).1.game.conversation = s.game.conversation) ∧
    (∀ sid, s.simulationSocket = some sid →
      (onAction message playerAction s).2 =
        (if truthy message then
          [Out.broadcast (Payload.chatMessage ("> " ++ message.getD ""))]
         else []) ++
        [Out.simGenerate
          { turn := s.game.turn + 1,
            playerAction := if truthy playerAction then playerAction else message,
            conversation := lastN 20 (onAction message playerAction s).1.game.conversation,
            location := s.game.playerLocation,
            isAlive := s.game.isAlive,
            timeRemaining := s.game.timeRemaining }]) ∧
    (s.simulationSocket = none →
      (onAction message playerAction s).2 =
        (if truthy message then
          [Out.broadcast (Payload.chatMessage ("> " ++ message.getD ""))]
         else []) ++
        [Out.broadcast (Payload.gameResponse noSimMessage noSimChoices)]) ∧
    ((lastN 20 (onAction message playerAction s).1.game.conversation).length =
      min 20 (onAction message playerAction s).1.game.conversation.length) ∧
    ((onAction message playerAction s).1.game.conversation.take
        ((onAction message playerAction s).1.game.conversation.length - 20) ++
      lastN 20 (onAction message playerAction s).1.game.conversation =
      (onAction message playerAction s).1.game.conversation) := by
  have hlen : ∀ l : List Entry, (lastN 20 l).length = min 20 l.length := by
    intro l
    simp only [lastN, List.length_drop]
    omega
  have htake : ∀ l : List Entry, l.take (l.length - 20) ++ lastN 20 l = l := by
    intro l
    simp [lastN, List.take_append_drop]
  have htake2 : ∀ (l : List Entry) (e : Entry),
      List.take (l.length - 19) (l ++ [e]) ++ lastN 20 (l ++ [e]) = l ++ [e] := by
    intro l e
    have h := htake (l ++ [e])
    rw [List.length_append] at h
    simpa using h
  by_cases hmsg : truthy message = true <;>
    cases hsim : s.simulationSocket <;>
      simp [onAction, hover, hmsg, hsim, hlen, htake, htake2]

/-- Witness for `action_handler_spec`: the spec scenario — fresh session,
`action` with message "check panel", no simulation socket connected; the
degraded-mode response with the fixed fallback list is broadcast and the
turn becomes 1. -/
theorem action_handler_spec_w :
    (onAction (some "check panel") none sDoctorFresh).1.game.turn = 1 ∧
    (onAction (some "check panel") none sDoctorFresh).1.game.conversation =
      [{ speaker := "플레이어", text := "check panel" }] ∧
    (onAction (some "check panel") none sDoctorFresh).2 =
      [Out.broadcast (Payload.chatMessage "> check panel"),
       Out.broadcast (Payload.gameResponse noSimMessage noSimChoices)] := by
  have h := action_handler_spec sDoctorFresh (some "check panel") none rfl
  refine ⟨?_, ?_, ?_⟩
  · simpa [sDoctorFresh] using h.1
  · simpa [sDoctorFresh] using h.2.1 (by rfl)
  · simpa [sDoctorFresh, truthy] using h.2.2.2.2.1 rfl

/-! ### Claim C6: reset / restart -/

/-- Claim C6: `startGame` (the reset routine, also run by the restart
handler) reinitializes the whole state record together — turn 0, time 600,
outcome unset, empty log, game-over flag cleared, a fresh secret role from
the 4-role set — cancels any previously live interval before arming the
new one, and leaves exactly one live interval; the restart handler's state
effect is exactly `startGame`'s. -/
theorem startGame_reset_spec (k : Nat) (s : ServerState) (hk : k < 4)
    (hinv : timerInv s) :
    ((startGame k s).1.game.turn = 0) ∧
    ((startGame k s).1.game.timeRemaining = 600) ∧
    ((startGame k s).1.game.gameResult = none) ∧
    ((startGame k s).1.game.conversation = []) ∧
    ((startGame k s).1.game.gameOver = false) ∧
    ((startGame k s).1.game.playerLocation = "bridge") ∧
    ((startGame k s).1.game.isAlive = true) ∧
    (∃ ro ∈ ROLES, (startGame k s).1.game.traitor = some ro) ∧
    ((startGame k s).1.live = [s.nextTimer]) ∧
    ((startGame k s).1.gameTimer = some s.nextTimer) ∧
    (∀ id ∈ s.live, id ∉ (startGame k s).1.live) ∧
    timerInv (startGame k s).1 ∧
    ((onRestartGame k s).1 = (startGame k s).1) := by
  have hrole : ROLES.getD k "Captain" ∈ ROLES := by
    interval_cases k <;> simp [ROLES]
  have hlive : (clearTimer s).live = [] := clearTimer_live_of_inv s hinv
  refine ⟨?_, ?_, ?_, ?_, ?_, ?_, ?_, ⟨ROLES.getD k "Captain", hrole, ?_⟩,
    ?_, ?_, ?_, ?_, ?_⟩ <;>
    simp [startGame, onRestartGame, hlive, clearTimer_nextTimer, timerInv]
  intro id hid
  exact Nat.ne_of_lt (hinv id hid).2

/-- Witness for `startGame_reset_spec`: resetting the mid-game state
`sSim` (one live timer, identifier 0) arms exactly the fresh interval 1
and cancels interval 0. -/
theorem startGame_reset_spec_w :
    (2 < 4) ∧
    ((startGame 2 sSim).1.game.turn = 0) ∧
    ((startGame 2 sSim).1.game.timeRemaining = 600) ∧
    ((startGame 2 sSim).1.game.gameOver = false) ∧
    (∃ ro ∈ ROLES, (startGame 2 sSim).1.game.traitor = some ro) ∧
    ((startGame 2 sSim).1.live = [1]) ∧
    (∀ id ∈ sSim.live, id ∉ (startGame 2 sSim).1.live) := by
  have h := startGame_reset_spec 2 sSim (by omega)
    (by intro id hid; simp [sSim] at hid; simp [sSim, hid])
  exact ⟨by omega, h.1, h.2.1, h.2.2.2.2.1, h.2.2.2.2.2.2.2.1,
    by simpa [sSim] using h.2.2.2.2.2.2.2.2.1,
    by simpa [sSim] using h.2.2.2.2.2.2.2.2.2.2.1⟩

/-! ### Claim C3: the game-over latch -/

theorem step_preserves_over (e : Event) (s : ServerState)
    (hre : isRestart e = false) (hov : s.game.gameOver = true) :
    (step e s).1.game.gameOver = true := by
  cases e with
  | simReady sender => simp [step, onSimulationReady, hov]
  | act _ m pa => simp [step, onAction, hov]
  | accuse _ tn => simp [step, onAccuse, hov]
  | aiResp sender m c => simp [step, onAiResponse, hov]
  | reqInit sender => simp [step, onRequestInitialState, hov]
  | restart _ k => simp [isRestart] at hre
  | tickEv => simp [step, tick, hov, clearIntervalRef_game]
  | disconnect sender =>
    by_cases h : s.simulationSocket = some sender <;>
      simp [step, onDisconnect, h, hov]

/-- Claim C3: the game-over flag is a one-way latch — no event other than
the restart request ever clears it, so within a session (between restarts)
it transitions from false to true at most once; and once it is set, every
subsequently received `action`, `accuse`, and `ai response` returns with
the state completely unchanged and emits nothing. -/
theorem gameOver_latch_spec (s : ServerState) :
    (∀ e : Event, isRestart e = false → s.game.gameOver = true →
      (step e s).1.game.gameOver = true) ∧
    (∀ es : List Event, (∀ e ∈ es, isRestart e = false) → s.game.gameOver = true →
      (run es s).1.game.gameOver = true) ∧
    (s.game.gameOver = true →
      ∀ (sender : Nat) (m pa tn : Option String) (msg : String)
        (ch : Option (List String)),
        step (.act sender m pa) s = (s, []) ∧
        step (.accuse sender tn) s = (s, []) ∧
        step (.aiResp sender msg ch) s = (s, [])) := by
  refine ⟨fun e => step_preserves_over e s, ?_, ?_⟩
  · intro es
    induction es generalizing s with
    | nil => intro _ hov; simpa [run] using hov
    | cons e es ih =>
      intro hre hov
      have h1 := step_preserves_over e s (hre e (by simp)) hov
      have h2 := ih (step e s).1 (fun e' he' => hre e' (by simp [he'])) h1
      simpa [run] using h2
  · intro hov sender m pa tn msg ch
    exact ⟨by simp [step, onAction, hov], by simp [step, onAccuse, hov],
      by simp [step, onAiResponse, hov]⟩

/-- Witness for `gameOver_latch_spec`: on the ended session `sEnded`, a
whole trace of post-game events leaves the flag latched, and an action, an
accusation and a narration reply are each exact no-ops. -/
theorem gameOver_latch_spec_w :
    sEnded.game.gameOver = true ∧
    (run [Event.act 1 (some "hello") none, Event.accuse 1 (some "선장"),
          Event.aiResp 1 "text" none, Event.tickEv] sEnded).1.game.gameOver = true ∧
    step (.act 1 (some "hello") none) sEnded = (sEnded, []) ∧
    step (.accuse 1 (some "선장")) sEnded = (sEnded, []) ∧
    step (.aiResp 1 "text" none) sEnded = (sEnded, []) := by
  have h := gameOver_latch_spec sEnded
  have h3 := h.2.2 rfl 1 (some "hello") none (some "선장") "text" none
  exact ⟨rfl,
    h.2.1 [Event.act 1 (some "hello") none, Event.accuse 1 (some "선장"),
           Event.aiResp 1 "text" none, Event.tickEv] (by decide) rfl,
    h3.1, h3.2.1, h3.2.2⟩

/-! ### Claim C7: secret-role sends on restart -/

/-- Counterexample to claim C7: handling one `restart_game` request while
the simulation socket is connected emits `secret_traitor_info` twice (once
inside `startGame`, lines 59-61, and once again in the restart handler,
lines 251-253), not exactly once. -/
theorem restart_double_traitor_send :
    countTraitorSends (onRestartGame 0 sSim).2 = 2 ∧
    ¬ countTraitorSends (onRestartGame 0 sSim).2 = 1 := by
  constructor <;> decide

/-- Claim C7 as amended: per session the secret role goes to the
simulation socket and to no other peer — registration while a role is
assigned produces exactly one `secret_traitor_info` send — but a single
restart request while the simulation socket is connected produces exactly
two `secret_traitor_info` sends, both carrying the newly drawn role (one
from the reset routine, one from the restart handler), with the
`system_reset` broadcast between them; with no simulation socket connected
the restart produces no role send at all. -/
theorem restart_traitor_sends_amended (k : Nat) (s : ServerState) :
    (∀ sid, s.simulationSocket = some sid →
      (onRestartGame k s).2 =
        [Out.simTraitorInfo (some (ROLES.getD k "Captain")),
         Out.broadcast Payload.systemReset,
         Out.simTraitorInfo (some (ROLES.getD k "Captain"))] ∧
      countTraitorSends (onRestartGame k s).2 = 2) ∧
    (s.simulationSocket = none →
      (onRestartGame k s).2 = [Out.broadcast Payload.systemReset] ∧
      countTraitorSends (onRestartGame k s).2 = 0) ∧
    (∀ sender, truthy s.game.traitor = true →
      (onSimulationReady sender s).2 = [Out.simTraitorInfo s.game.traitor] ∧
      countTraitorSends (onSimulationReady sender s).2 = 1) := by
  refine ⟨?_, ?_, ?_⟩
  · intro sid hsim
    constructor <;>
      simp [onRestartGame, startGame, clearTimer_simulationSocket, hsim,
        countTraitorSends]
  · intro hsim
    constructor <;>
      simp [onRestartGame, startGame, clearTimer_simulationSocket, hsim,
        countTraitorSends]
  · intro sender htr
    constructor <;> simp [onSimulationReady, htr, countTraitorSends]

/-- Witness for `restart_traitor_sends_amended` on the concrete connected
state `sSim` and the disconnected state `sDoctor`. -/
theorem restart_traitor_sends_amended_w :
    sSim.simulationSocket = some 5 ∧
    (onRestartGame 0 sSim).2 =
      [Out.simTraitorInfo (some "Captain"),
       Out.broadcast Payload.systemReset,
       Out.simTraitorInfo (some "Captain")] ∧
    sDoctor.simulationSocket = none ∧
    countTraitorSends (onRestartGame 0 sDoctor).2 = 0 ∧
    countTraitorSends (onSimulationReady 9 sDoctor).2 = 1 := by
  refine ⟨rfl, ?_, rfl, ?_, ?_⟩
  · simpa [ROLES] using ((restart_traitor_sends_amended 0 sSim).1 5 rfl).1
  · exact ((restart_traitor_sends_amended 0 sDoctor).2.1 rfl).2
  · exact ((restart_traitor_sends_amended 0 sDoctor).2.2 9 (by rfl)).2

/-! ### Claim C8: the initial-state reply -/

/-- Counterexample to claim C8: the reply to `request-initial-state` on an
ended session does contain a reconstructed `game_over` event, but that
event carries no `realTraitor` field (lines 236-241 emit only `result` and
`message`), contrary to the claim. -/
theorem initial_state_no_realTraitor :
    ((onRequestInitialState 7 sEnded).2.any isGameOverOut = true) ∧
    ((onRequestInitialState 7 sEnded).2.all (fun o => !carriesRealTraitor o) = true) := by
  constructor <;> decide

/-- Claim C8 as amended: the `request-initial-state` reply goes only to
the requesting socket (nothing is broadcast), always carries the current
remaining time, carries a reconstructed `game_over` — built from the
stored outcome, with only `result` and `message` fields and no
`realTraitor` — exactly when the game has already ended. -/
theorem request_initial_state_spec (sender : Nat) (s : ServerState) :
    ((onRequestInitialState sender s).1 = s) ∧
    ((onRequestInitialState sender s).2.all (isDirectTo sender) = true) ∧
    (broadcasts (onRequestInitialState sender s).2 = []) ∧
    (Out.direct sender (Payload.timeUpdate s.game.timeRemaining) ∈
      (onRequestInitialState sender s).2) ∧
    (s.game.gameOver = true →
      (onRequestInitialState sender s).2 =
        [Out.direct sender (Payload.timeUpdate s.game.timeRemaining),
         Out.direct sender (Payload.gameOverNoTraitor s.game.gameResult
           (if s.game.gameResult = some "victory" then victoryMessage
            else defeatMessage))]) ∧
    (s.game.gameOver = false →
      (onRequestInitialState sender s).2 =
        [Out.direct sender (Payload.timeUpdate s.game.timeRemaining)]) ∧
    ((onRequestInitialState sender s).2.all (fun o => !carriesRealTraitor o) = true) := by
  by_cases hov : s.game.gameOver = true <;>
    simp [onRequestInitialState, hov, isDirectTo, carriesRealTraitor, broadcasts]

/-- Witness for `request_initial_state_spec` on the ended session
`sEnded`: the reply is two direct messages, the second the reconstructed
`game_over` with the stored defeat outcome and no `realTraitor`. -/
theorem request_initial_state_spec_w :
    sEnded.game.gameOver = true ∧
    (onRequestInitialState 7 sEnded).2 =
      [Out.direct 7 (Payload.timeUpdate 42),
       Out.direct 7 (Payload.gameOverNoTraitor (some "defeat") defeatMessage)] := by
  refine ⟨rfl, ?_⟩
  have h := (request_initial_state_spec 7 sEnded).2.2.2.2.1 rfl
  simpa [sEnded] using h

/-! ### Claim C9: who may submit narration replies -/

/-- Counterexample to claim C9: with socket 1 registered as the simulation
socket, an `ai response` submitted by socket 2 — a different peer — is
processed anyway: the conversation log grows and two broadcasts are
emitted, because the handler (lines 212-230) never compares the sender
against `simulationSocket`. -/
theorem ai_response_foreign_sender :
    sC9.simulationSocket = some 1 ∧
    ¬ (onAiResponse 2 "hello" none sC9).1 = sC9 ∧
    ¬ broadcasts (onAiResponse 2 "hello" none sC9).2 = [] := by
  refine ⟨rfl, ?_, ?_⟩ <;> decide

/-- Claim C9 as amended: an `ai response` received while the session is
not over is always processed — appended to the log as an AI entry and
broadcast as a chat line plus a structured `game-response` whose choices
default to the fixed 3-item list — regardless of which peer submits it;
the handler's behavior is identical for every sender, so the
collaborator-handle restriction is not enforced. -/
theorem ai_response_any_sender (sender sender2 : Nat) (message : String)
    (choices : Option (List String)) (s : ServerState)
    (hover : s.game.gameOver = false) :
    (onAiResponse sender message choices s).1.game.conversation =
      s.game.conversation ++ [{ speaker := "AI", text := message }] ∧
    (onAiResponse sender message choices s).2 =
      [Out.broadcast (Payload.chatMessage message),
       Out.broadcast (Payload.gameResponse message (choices.getD aiDefaultChoices))] ∧
    onAiResponse sender message choices s = onAiResponse sender2 message choices s := by
  refine ⟨?_, ?_, rfl⟩ <;> simp [onAiResponse, hover]

/-- Witness for `ai_response_any_sender`: socket 2 (not the registered
simulation socket 1 of `sC9`) submits a narration reply and it is fully
processed, identically to a submission by socket 1. -/
theorem ai_response_any_sender_w :
    sC9.game.gameOver = false ∧
    (onAiResponse 2 "hello" none sC9).1.game.conversation =
      [{ speaker := "AI", text := "hello" }] ∧
    (onAiResponse 2 "hello" none sC9).2 =
      [Out.broadcast (Payload.chatMessage "hello"),
       Out.broadcast (Payload.gameResponse "hello" aiDefaultChoices)] ∧
    onAiResponse 2 "hello" none sC9 = onAiResponse 1 "hello" none sC9 := by
  have h := ai_response_any_sender 2 1 "hello" none sC9 rfl
  exact ⟨rfl, by simpa [sC9] using h.1, h.2.1, h.2.2⟩

/-! ### Claim C10: the stale narrative after a timeout -/

/-- Claim C10: a session that ended by timer expiry broadcast the timeout
narrative, but a later `request-initial-state` reply reconstructs the
message solely from the stored victory/defeat outcome and therefore
carries the wrong-accusation defeat narrative (the red-blood
innocent-casualty message), which differs from the timeout narrative. -/
theorem timeout_initial_state_mismatch (s : ServerState) (sender : Nat)
    (hover : s.game.gameOver = false) (ht : s.game.timeRemaining ≤ 1) :
    (Out.broadcast (Payload.gameOverFull "defeat" timeoutMessage s.game.traitor) ∈
      (tick s).2) ∧
    (Out.direct sender (Payload.gameOverNoTraitor (some "defeat") defeatMessage) ∈
      (onRequestInitialState sender (tick s).1).2) ∧
    timeoutMessage ≠ defeatMessage := by
  have ht0 : s.game.timeRemaining - 1 = 0 := by omega
  have hover1 : (tick s).1.game.gameOver = true := by
    simp [tick, hover, ht0, clearIntervalRef_game]
  have hres : (tick s).1.game.gameResult = some "defeat" := by
    simp [tick, hover, ht0, clearIntervalRef_game]
  refine ⟨?_, ?_, ?_⟩
  · simp [tick, hover, ht0]
  · simp [onRequestInitialState, hover1, hres]
  · decide

/-- Witness for `timeout_initial_state_mismatch`: ticking `sAlmost` to
timeout, then requesting initial state, yields the red-blood defeat
narrative rather than the timeout narrative that was broadcast. -/
theorem timeout_initial_state_mismatch_w :
    sAlmost.game.gameOver = false ∧ sAlmost.game.timeRemaining ≤ 1 ∧
    (Out.broadcast (Payload.gameOverFull "defeat" timeoutMessage (some "Engineer")) ∈
      (tick sAlmost).2) ∧
    (Out.direct 4 (Payload.gameOverNoTraitor (some "defeat") defeatMessage) ∈
      (onRequestInitialState 4 (tick sAlmost).1).2) ∧
    timeoutMessage ≠ defeatMessage := by
  have h := timeout_initial_state_mismatch sAlmost 4 rfl (by simp [sAlmost])
  exact ⟨rfl, by simp [sAlmost], by simpa [sAlmost] using h.1, h.2.1, h.2.2⟩

/-! ### Claim C4: secrecy of the drawn role -/

theorem broadcasts_append (o1 o2 : List Out) :
    broadcasts (o1 ++ o2) = broadcasts o1 ++ broadcasts o2 := by
  simp [broadcasts, List.filterMap_append]

theorem agree_elim (a b : ServerState) (h : agree a b) :
    b = setTraitor a b.game.traitor := by
  obtain ⟨⟨tu, pl, al, cv, go, tr0, tm, gr⟩, sim, gt, nt, lv⟩ := a
  obtain ⟨⟨tu2, pl2, al2, cv2, go2, tr2, tm2, gr2⟩, sim2, gt2, nt2, lv2⟩ := b
  simp only [agree, setTraitor] at h ⊢
  simp_all

/-- Core step lemma: changing only the stored secret role changes neither
whether a step ends the game, nor — for a step that leaves the game
un-ended — the non-role part of the resulting state or any broadcast-all
payload the step emits. -/
theorem step_core (e : Event) (a : ServerState) (r : Option String) :
    (step e (setTraitor a r)).1.game.gameOver = (step e a).1.game.gameOver ∧
    ((step e a).1.game.gameOver = false →
      setTraitor (step e (setTraitor a r)).1 none = setTraitor (step e a).1 none ∧
      broadcasts (step e (setTraitor a r)).2 = broadcasts (step e a).2) := by
  obtain ⟨⟨tu, pl, al, cv, go, tr0, tm, gr⟩, sim, gt, nt, lv⟩ := a
  cases e with
  | simReady sender =>
    refine ⟨rfl, fun _ => ⟨rfl, ?_⟩⟩
    by_cases h1 : truthy r = true <;> by_cases h2 : truthy tr0 = true <;>
      simp [step, onSimulationReady, setTraitor, broadcasts, h1, h2]
  | act sender m pa =>
    by_cases hgo : go = true
    · exact ⟨by simp [step, onAction, setTraitor, hgo],
        fun hov => by simp [step, onAction, setTraitor, hgo] at hov⟩
    · rw [Bool.not_eq_true] at hgo
      cases sim <;> by_cases hm : truthy m = true <;>
        refine ⟨by simp [step, onAction, setTraitor, hgo, hm], fun _ => ⟨?_, ?_⟩⟩ <;>
          simp [step, onAction, setTraitor, broadcasts, hgo, hm]
  | accuse sender tn =>
    by_cases hgo : go = true
    · exact ⟨by simp [step, onAccuse, setTraitor, hgo],
        fun hov => by simp [step, onAccuse, setTraitor, hgo] at hov⟩
    · rw [Bool.not_eq_true] at hgo
      by_cases htn : truthy tn = true
      · constructor
        · cases gt <;>
            simp [step, onAccuse, setTraitor, clearTimer, hgo, htn] <;>
            split_ifs <;> simp
        · intro hov
          cases gt <;>
            by_cases hc2 : (some ((nameMapping (tn.getD "")).getD (tn.getD "")) :
                Option String) = tr0 <;>
              simp [step, onAccuse, setTraitor, clearTimer, hgo, htn, hc2] at hov
      · rw [Bool.not_eq_true] at htn
        refine ⟨by simp [step, onAccuse, setTraitor, hgo, htn], fun _ => ⟨?_, ?_⟩⟩ <;>
          simp [step, onAccuse, setTraitor, broadcasts, hgo, htn]
  | aiResp sender m c =>
    by_cases hgo : go = true
    · exact ⟨by simp [step, onAiResponse, setTraitor, hgo],
        fun hov => by simp [step, onAiResponse, setTraitor, hgo] at hov⟩
    · rw [Bool.not_eq_true] at hgo
      refine ⟨by simp [step, onAiResponse, setTraitor, hgo], fun _ => ⟨?_, ?_⟩⟩ <;>
        simp [step, onAiResponse, setTraitor, broadcasts, hgo]
  | reqInit sender =>
    refine ⟨rfl, fun _ => ⟨rfl, ?_⟩⟩
    by_cases h : go = true <;> simp [step, onRequestInitialState, broadcasts, setTraitor, h]
  | restart sender k =>
    constructor
    · simp [step, onRestartGame, startGame, setTraitor]
    · intro _
      constructor
      · cases gt <;> cases sim <;>
          simp [step, onRestartGame, startGame, clearTimer, setTraitor]
      · cases gt <;> cases sim <;>
          simp [step, onRestartGame, startGame, clearTimer, setTraitor, broadcasts]
  | tickEv =>
    by_cases hgo : go = true
    · exact ⟨by simp [step, tick, setTraitor, hgo, clearIntervalRef_game],
        fun hov => by
          simp [step, tick, setTraitor, hgo, clearIntervalRef_game] at hov⟩
    · rw [Bool.not_eq_true] at hgo
      by_cases ht : tm - 1 = 0
      · constructor
        · cases gt <;> simp [step, tick, setTraitor, hgo, ht, clearIntervalRef]
        · intro hov
          cases gt <;> simp [step, tick, setTraitor, hgo, ht, clearIntervalRef] at hov
      · refine ⟨by simp [step, tick, setTraitor, hgo, ht], fun _ => ⟨?_, ?_⟩⟩ <;>
          simp [step, tick, setTraitor, broadcasts, hgo, ht]
  | disconnect sender =>
    by_cases h : sim = some sender <;>
      refine ⟨by simp [step, onDisconnect, setTraitor, h], fun _ => ⟨?_, ?_⟩⟩ <;>
        simp [step, onDisconnect, setTraitor, broadcasts, h]

/-- Trace version of `step_core`: two runs from states that differ only in
the drawn role, along any event sequence during which the game never
becomes over, stay equal up to the role and emit identical broadcast-all
payload sequences. -/
theorem run_agree (es : List Event) (a b : ServerState) (hab : agree a b)
    (hsafe : safeRunB es a = true) :
    agree (run es a).1 (run es b).1 ∧
    broadcasts (run es a).2 = broadcasts (run es b).2 := by
  induction es generalizing a b with
  | nil => exact ⟨hab, rfl⟩
  | cons e es ih =>
    simp only [safeRunB, Bool.and_eq_true, Bool.not_eq_true'] at hsafe
    obtain ⟨hov, hsafe2⟩ := hsafe
    have hb := agree_elim a b hab
    have hc := step_core e a b.game.traitor
    rw [← hb] at hc
    have h2 := hc.2 hov
    have hagree2 : agree (step e a).1 (step e b).1 := h2.1.symm
    have hrest := ih (step e a).1 (step e b).1 hagree2 hsafe2
    constructor
    · simpa [run] using hrest.1
    · simp [run, broadcasts_append, h2.2, hrest.2]

/-- Claim C4: the secret role is drawn from the fixed 4-element role set
at session creation; and for two runs identical except for the drawn role,
every broadcast-all payload emitted while the game has not yet ended is
identical (so the role appears in broadcast payloads only through the
`game_over` event at resolution, which is the step that ends the game). -/
theorem traitor_secrecy :
    (∀ (k : Nat) (s : ServerState), k < 4 →
      ∃ ro ∈ ROLES, (startGame k s).1.game.traitor = some ro) ∧
    (∀ (es : List Event) (a b : ServerState), agree a b → safeRunB es a = true →
      agree (run es a).1 (run es b).1 ∧
      broadcasts (run es a).2 = broadcasts (run es b).2) := by
  constructor
  · intro k s hk
    refine ⟨ROLES.getD k "Captain", ?_, by simp [startGame]⟩
    interval_cases k <;> simp [ROLES]
  · exact run_agree

/-- Witness for `traitor_secrecy`: a concrete five-event pre-game-end
trace (a tick, a player action, an initial-state request, a narration
reply, a tick) from two states differing only in the secret role — Doctor
versus Captain — produces identical broadcast sequences; and a concrete
reset draw lands in the role set. -/
theorem traitor_secrecy_w :
    (2 < 4 ∧ ∃ ro ∈ ROLES, (startGame 2 initialServer).1.game.traitor = some ro) ∧
    agree sDoctor sDoctorAlt ∧ safeRunB esW sDoctor = true ∧
    broadcasts (run esW sDoctor).2 = broadcasts (run esW sDoctorAlt).2 := by
  refine ⟨⟨by omega, traitor_secrecy.1 2 initialServer (by omega)⟩, ?_, ?_, ?_⟩
  · decide
  · decide
  · exact (traitor_secrecy.2 esW sDoctor sDoctorAlt (by decide) (by decide)).2

end Tartarus
